import Mathlib

/-
  Verification of the Smart Helpdesk triage pipeline.

  Shallow embedding of the core triage code:
    - backend/services/agentService.js   (orchestrator, retry wrapper)
    - backend/services/llmService.js     (deterministic stub classifier, KB search facade)
    - backend/models/index.js            (audit-log schema action enum)
    - backend/routes/agents.js           (manual-trigger status guard)

  JavaScript numbers that carry confidences and thresholds are modelled as
  rationals; database collections are modelled as lists threaded through the
  pipeline; awaited calls that can reject are modelled with Except.
  Latency / timestamp metadata is not modelled (real time).
-/

set_option autoImplicit false

namespace Helpdesk

/-! ## Data model (models/index.js) -/

inductive Category where
  | billing
  | tech
  | shipping
  | other
  deriving DecidableEq, Repr

/-- Ticket status enum; the source string "open" is rendered as tOpen. -/
inductive TicketStatus where
  | tOpen
  | triaged
  | waitingHuman
  | resolved
  | closed
  deriving DecidableEq, Repr

inductive DecisionAction where
  | auto_close
  | assign_human
  deriving DecidableEq, Repr

structure Reply where
  author : Nat
  content : String
  isAgentGenerated : Bool
  deriving DecidableEq, Repr

structure Ticket where
  id : Nat
  title : String
  description : String
  category : Category
  status : TicketStatus
  assignee : Option Nat
  agentSuggestionId : Option Nat
  replies : List Reply
  deriving DecidableEq, Repr

structure Classification where
  predictedCategory : Category
  confidence : ℚ
  deriving DecidableEq, Repr

structure Draft where
  draftReply : String
  citations : List String
  deriving DecidableEq, Repr

structure Config where
  autoCloseEnabled : Bool
  confidenceThreshold : ℚ
  deriving DecidableEq, Repr

structure AgentSuggestion where
  id : Nat
  ticketId : Nat
  predictedCategory : Category
  articleIds : List Nat
  draftReply : String
  confidence : ℚ
  autoClosed : Bool
  deriving DecidableEq, Repr

/-- A knowledge-base article as stored (articleSchema). -/
structure Article where
  id : Nat
  title : String
  body : String
  tags : List String
  score : Option ℚ
  deriving DecidableEq, Repr

/-- Shape returned by KBSearchService.search: id, title, body, tags, score. -/
structure KBResult where
  id : Nat
  title : String
  body : String
  tags : List String
  score : ℚ
  deriving DecidableEq, Repr

/-! ## Audit log (models/index.js auditLogSchema, agentService meta payloads) -/

structure TriagePlanInfo where
  id : Nat
  title : String
  category : Category
  status : TicketStatus
  deriving DecidableEq, Repr

structure TriagePlan where
  steps : List String
  ticketInfo : TriagePlanInfo
  deriving DecidableEq, Repr

/-- The structured metadata objects the agent service attaches to audit rows. -/
inductive AuditMeta where
  | started (plan : TriagePlan)
  | classified (originalCategory : Category) (predictedCategory : Category)
      (confidence : ℚ)
  | kbRetrieved (searchQuery : String) (articlesFound : Nat)
      (articleIds : List Nat) (articleTitles : List String)
  | draftGenerated (draftLength : Nat) (citationsCount : Nat)
  | decisionMade (action : DecisionAction) (confidence : ℚ) (threshold : ℚ)
      (autoCloseEnabled : Bool)
  | autoClosed (suggestionId : Nat) (confidence : ℚ)
  | assignedToHuman (suggestionId : Nat) (assigneeId : Option Nat) (confidence : ℚ)
  | failed (error : String)
  deriving DecidableEq, Repr

structure AuditEntry where
  ticketId : Nat
  traceId : String
  actor : String
  action : String
  meta : AuditMeta
  deriving DecidableEq, Repr

/-- The action enum of auditLogSchema (models/index.js lines 180-195),
verbatim.  Note that the pipeline actions TRIAGE_STARTED, DECISION_MADE and
TRIAGE_FAILED written by agentService.js are absent. -/
def auditActionEnum : List String :=
  ["TICKET_CREATED", "AGENT_CLASSIFIED", "KB_RETRIEVED", "DRAFT_GENERATED",
   "AUTO_CLOSED", "ASSIGNED_TO_HUMAN", "REPLY_SENT", "TICKET_REOPENED",
   "TICKET_CLOSED", "SUGGESTION_EDITED"]

/-- Audit persistence function: an append to the log that may reject. -/
abbrev SaveFn := AuditEntry → List AuditEntry → Except String (List AuditEntry)

/-- auditLog.save() with the mongoose enum validator on the action path:
an action outside auditActionEnum rejects with a ValidationError. -/
def saveAuditValidated : SaveFn := fun e log =>
  if auditActionEnum.contains e.action then Except.ok (log ++ [e])
  else Except.error
    ("AuditLog validation failed: " ++ e.action ++
     " is not a valid enum value for path action")

/-- Counterfactual audit store that accepts every action; used to analyse the
orchestrator sequencing in agentService.js in isolation from the schema. -/
def saveAuditRaw : SaveFn := fun e log => Except.ok (log ++ [e])

/-! ## String helpers (JS semantics) -/

/-- needle is a prefix of hay, over character lists. -/
def listPrefixOfCL : List Char → List Char → Bool
  | [], _ => true
  | _ :: _, [] => false
  | a :: as, b :: bs => a == b && listPrefixOfCL as bs

/-- needle occurs as a contiguous substring of hay (JS String.includes). -/
def listContainsSub (needle : List Char) : List Char → Bool
  | [] => needle.isEmpty
  | b :: bs => listPrefixOfCL needle (b :: bs) || listContainsSub needle bs

def strIncludes (hay needle : String) : Bool :=
  listContainsSub needle.toList hay.toList

/-- JS toLowerCase (over the characters appearing in this code base). -/
def strToLower (s : String) : String :=
  String.mk (s.toList.map Char.toLower)

/-- JS substring(0, n). -/
def strTake (n : Nat) (s : String) : String :=
  String.mk (s.toList.take n)

/-- JS Math.min on two rationals. -/
def mathMin (a b : ℚ) : ℚ := if a ≤ b then a else b

/-- Rational addition through divInt (kernel-reducible; Rat.add is marked
irreducible).  Proven equal to + below. -/
def ratAdd (a b : ℚ) : ℚ :=
  Rat.divInt (a.num * b.den + b.num * a.den) (a.den * b.den)

/-- Scalar multiplication by a natural through divInt (kernel-reducible).
Proven equal to n * b below. -/
def ratMulNat (n : Nat) (b : ℚ) : ℚ :=
  Rat.divInt (n * b.num) b.den

/-! ## Deterministic stub classifier (llmService.js _stubClassify) -/

def billingWords : List String :=
  ["refund", "invoice", "payment", "charge", "billing", "money", "cost", "price"]

def techWords : List String :=
  ["error", "bug", "login", "password", "api", "code", "500", "404", "crash", "broken"]

def shippingWords : List String :=
  ["delivery", "shipment", "tracking", "package", "order", "shipping", "delivered"]

/-- Number of keywords of the list occurring in the lower-cased text. -/
def countMatches (lower : String) (ws : List String) : Nat :=
  (ws.filter (fun w => strIncludes lower w)).length

def billingMatches (text : String) : Nat :=
  countMatches (strToLower text) billingWords

def techMatches (text : String) : Nat :=
  countMatches (strToLower text) techWords

def shippingMatches (text : String) : Nat :=
  countMatches (strToLower text) shippingWords

def maxMatches (text : String) : Nat :=
  max (billingMatches text) (max (techMatches text) (shippingMatches text))

/-- Math.min(0.9, 0.6 + matches * 0.1). -/
def stubConfidence (n : Nat) : ℚ :=
  mathMin (Rat.divInt 9 10) (ratAdd (Rat.divInt 6 10) (ratMulNat n (Rat.divInt 1 10)))

/-- _stubClassify: rule-based classification.  predictedCategory and
confidence start at other / 0.5 and are overwritten only inside the
maxMatches > 0 branch, mirroring the source's if chain. -/
def stubClassify (text : String) : Classification :=
  if 0 < maxMatches text then
    if billingMatches text = maxMatches text then
      ⟨Category.billing, stubConfidence (billingMatches text)⟩
    else if techMatches text = maxMatches text then
      ⟨Category.tech, stubConfidence (techMatches text)⟩
    else if shippingMatches text = maxMatches text then
      ⟨Category.shipping, stubConfidence (shippingMatches text)⟩
    else ⟨Category.other, Rat.divInt 1 2⟩
  else ⟨Category.other, Rat.divInt 1 2⟩

/-! ## Decision policy (agentService.js _makeTriageDecision, lines 204-208) -/

def shouldAutoClose (config : Config) (confidence : ℚ) : Bool :=
  config.autoCloseEnabled && decide (config.confidenceThreshold ≤ confidence)

def decideAction (config : Config) (confidence : ℚ) : DecisionAction :=
  if shouldAutoClose config confidence then DecisionAction.auto_close
  else DecisionAction.assign_human

/-! ## Pipeline state and environment -/

/-- The persistent state the triage run reads and writes: the ticket row,
the audit-log collection (insertion order) and the suggestion collection
(creation order). -/
structure HelpdeskState where
  ticket : Ticket
  auditLog : List AuditEntry
  suggestions : List AgentSuggestion
  deriving DecidableEq, Repr

structure TriageResult where
  success : Bool
  traceId : String
  ticketId : Nat
  decision : DecisionAction
  confidence : ℚ
  deriving DecidableEq, Repr

/-- External collaborators of the orchestrator: the classify / search / draft
capabilities (awaited calls that may reject), the resolved configuration,
article re-fetch by id, the first agent-role user and the system identity. -/
structure TriageEnv where
  classify : String → Except String Classification
  searchKB : String → Category → Nat → Except String (List KBResult)
  draft : String → List KBResult → Except String Draft
  config : Config
  findArticles : List Nat → List KBResult
  firstAgent : Option Nat
  systemUserId : Nat
  freshSuggestionId : Nat

/-- Error raised inside a pipeline step, carrying the ticket row and audit
log as persisted at the moment the exception escaped. -/
abbrev StepErr := Ticket × List AuditEntry × String

/-! ## Pipeline steps (agentService.js) -/

/-- _createTriagePlan: purely observational snapshot. -/
def createTriagePlan (t : Ticket) : TriagePlan :=
  { steps :=
      ["classify_category", "retrieve_kb_articles", "draft_reply",
       "compute_confidence", "make_decision"],
    ticketInfo := { id := t.id, title := t.title, category := t.category,
                    status := t.status } }

/-- Second half of _classifyTicket: mutate-and-save the category when
confidence exceeds 0.7 (strict), then write the AGENT_CLASSIFIED row whose
originalCategory field reads the possibly already-mutated ticket. -/
def classifyTicketSave (save : SaveFn) (ticket : Ticket) (trace : String)
    (log : List AuditEntry) (cl : Classification) :
    Except StepErr (Ticket × List AuditEntry × Classification) :=
  let ticket2 :=
    if Rat.divInt 7 10 < cl.confidence then
      { ticket with category := cl.predictedCategory }
    else ticket
  match save ⟨ticket.id, trace, "system", "AGENT_CLASSIFIED",
      AuditMeta.classified ticket2.category cl.predictedCategory cl.confidence⟩ log with
  | Except.error e => Except.error (ticket2, log, e)
  | Except.ok log2 => Except.ok (ticket2, log2, cl)

/-- _classifyTicket. -/
def classifyTicket (save : SaveFn) (env : TriageEnv) (ticket : Ticket)
    (trace : String) (log : List AuditEntry) :
    Except StepErr (Ticket × List AuditEntry × Classification) :=
  match env.classify (ticket.title ++ "\n" ++ ticket.description) with
  | Except.error e => Except.error (ticket, log, e)
  | Except.ok cl => classifyTicketSave save ticket trace log cl

/-- _retrieveKBArticles. -/
def retrieveKBArticles (save : SaveFn) (env : TriageEnv) (ticket : Ticket)
    (cl : Classification) (trace : String) (log : List AuditEntry) :
    Except StepErr (List AuditEntry × List KBResult) :=
  let searchQuery := strTake 200 (ticket.title ++ " " ++ ticket.description)
  match env.searchKB searchQuery cl.predictedCategory 3 with
  | Except.error e => Except.error (ticket, log, e)
  | Except.ok articles =>
    match save ⟨ticket.id, trace, "system", "KB_RETRIEVED",
        AuditMeta.kbRetrieved (strTake 100 searchQuery) articles.length
          (articles.map (fun a => a.id)) (articles.map (fun a => a.title))⟩ log with
    | Except.error e => Except.error (ticket, log, e)
    | Except.ok log2 => Except.ok (log2, articles)

/-- _draftReply. -/
def draftReplyStep (save : SaveFn) (env : TriageEnv) (ticket : Ticket)
    (articles : List KBResult) (trace : String) (log : List AuditEntry) :
    Except StepErr (List AuditEntry × Draft) :=
  match env.draft (ticket.title ++ "\n" ++ ticket.description) articles with
  | Except.error e => Except.error (ticket, log, e)
  | Except.ok d =>
    match save ⟨ticket.id, trace, "system", "DRAFT_GENERATED",
        AuditMeta.draftGenerated d.draftReply.length d.citations.length⟩ log with
    | Except.error e => Except.error (ticket, log, e)
    | Except.ok log2 => Except.ok (log2, d)

/-- _makeTriageDecision: reads the configuration, applies the pure rule and
writes the DECISION_MADE row. -/
def makeTriageDecision (save : SaveFn) (env : TriageEnv) (ticket : Ticket)
    (cl : Classification) (trace : String) (log : List AuditEntry) :
    Except StepErr (List AuditEntry × DecisionAction) :=
  let action := decideAction env.config cl.confidence
  match save ⟨ticket.id, trace, "system", "DECISION_MADE",
      AuditMeta.decisionMade action cl.confidence env.config.confidenceThreshold
        env.config.autoCloseEnabled⟩ log with
  | Except.error e => Except.error (ticket, log, e)
  | Except.ok log2 => Except.ok (log2, action)

/-! ## Execute phase: log reconstruction (agentService.js lines 232-344) -/

def findAuditEntry (ticketId : Nat) (trace : String) (action : String)
    (log : List AuditEntry) : Option AuditEntry :=
  log.find? (fun e =>
    e.ticketId == ticketId && e.traceId == trace && e.action == action)

/-- _getClassificationFromLogs, as consumed by _executeDecision. -/
def getClassificationFromLogs (ticketId : Nat) (trace : String)
    (log : List AuditEntry) : Option (Category × ℚ) :=
  match findAuditEntry ticketId trace "AGENT_CLASSIFIED" log with
  | some e =>
    match e.meta with
    | AuditMeta.classified _ predicted conf => some (predicted, conf)
    | _ => none
  | none => none

/-- _getArticlesFromLogs: the article ids stored in the KB_RETRIEVED row. -/
def getArticleIdsFromLogs (ticketId : Nat) (trace : String)
    (log : List AuditEntry) : List Nat :=
  match findAuditEntry ticketId trace "KB_RETRIEVED" log with
  | some e =>
    match e.meta with
    | AuditMeta.kbRetrieved _ _ ids _ => ids
    | _ => []
  | none => []

/-- Latest suggestion for the ticket (findOne sorted createdAt descending). -/
def latestSuggestionFor (ticketId : Nat) (suggs : List AgentSuggestion) :
    Option AgentSuggestion :=
  (suggs.filter (fun s => s.ticketId == ticketId)).getLast?

/-- The hard-coded reply _getDraftFromLogs falls back to. -/
def fallbackDraftText : String :=
  "Thank you for your inquiry. Our team is reviewing your request."

/-- _getDraftFromLogs: the draft is NOT taken from the current run; when a
DRAFT_GENERATED row exists the function returns the draft of the most
recently created suggestion for the ticket (a previous run), and the
hard-coded fallback otherwise. -/
def getDraftFromLogs (ticketId : Nat) (trace : String) (log : List AuditEntry)
    (suggs : List AgentSuggestion) : String :=
  match findAuditEntry ticketId trace "DRAFT_GENERATED" log with
  | some _ =>
    match latestSuggestionFor ticketId suggs with
    | some s => s.draftReply
    | none => fallbackDraftText
  | none => fallbackDraftText

/-- _executeDecision: create the suggestion from log-reconstructed data,
link it, then either auto-close with a generated reply or assign a human,
writing the matching terminal audit row, and finally save the ticket.
On an audit rejection the suggestion is already persisted but the
in-memory ticket mutations are lost (ticket.save was not reached). -/
def executeDecision (save : SaveFn) (env : TriageEnv) (trace : String)
    (ticket : Ticket) (log : List AuditEntry) (suggs : List AgentSuggestion)
    (action : DecisionAction) :
    Except (HelpdeskState × String) HelpdeskState :=
  match getClassificationFromLogs ticket.id trace log with
  | none => Except.error (⟨ticket, log, suggs⟩,
      "TypeError: cannot read properties of null")
  | some (predicted, conf) =>
    let articleIds := getArticleIdsFromLogs ticket.id trace log
    let articles := env.findArticles articleIds
    let draftText := getDraftFromLogs ticket.id trace log suggs
    let suggestion : AgentSuggestion :=
      { id := env.freshSuggestionId, ticketId := ticket.id,
        predictedCategory := predicted,
        articleIds := articles.map (fun a => a.id),
        draftReply := draftText, confidence := conf,
        autoClosed := decide (action = DecisionAction.auto_close) }
    let suggs2 := suggs ++ [suggestion]
    let ticket2 := { ticket with agentSuggestionId := some suggestion.id }
    match action with
    | DecisionAction.auto_close =>
      let ticket3 := { ticket2 with
        status := TicketStatus.resolved,
        replies := ticket2.replies ++ [⟨env.systemUserId, draftText, true⟩] }
      match save ⟨ticket.id, trace, "system", "AUTO_CLOSED",
          AuditMeta.autoClosed suggestion.id conf⟩ log with
      | Except.error e => Except.error (⟨ticket, log, suggs2⟩, e)
      | Except.ok log2 => Except.ok ⟨ticket3, log2, suggs2⟩
    | DecisionAction.assign_human =>
      let ticket3 := { ticket2 with
        status := TicketStatus.waitingHuman,
        assignee :=
          match env.firstAgent with
          | some a => some a
          | none => ticket2.assignee }
      match save ⟨ticket.id, trace, "system", "ASSIGNED_TO_HUMAN",
          AuditMeta.assignedToHuman suggestion.id env.firstAgent conf⟩ log with
      | Except.error e => Except.error (⟨ticket, log, suggs2⟩, e)
      | Except.ok log2 => Except.ok ⟨ticket3, log2, suggs2⟩

/-! ## Orchestrator (agentService.js triageTicket) -/

abbrev TriageOutcome :=
  Except (HelpdeskState × String) (HelpdeskState × TriageResult)

/-- The try block of triageTicket: the six steps in their fixed order, each
audit write sharing the run id, aborting on the first error with the state
persisted so far. -/
def triageBody (save : SaveFn) (env : TriageEnv) (st : HelpdeskState)
    (trace : String) : TriageOutcome :=
  let ticket := st.ticket
  match save ⟨ticket.id, trace, "system", "TRIAGE_STARTED",
      AuditMeta.started (createTriagePlan ticket)⟩ st.auditLog with
  | Except.error e => Except.error (st, e)
  | Except.ok log1 =>
    match classifyTicket save env ticket trace log1 with
    | Except.error (t2, log2, e) => Except.error (⟨t2, log2, st.suggestions⟩, e)
    | Except.ok (t2, log2, cl) =>
      match retrieveKBArticles save env t2 cl trace log2 with
      | Except.error (t3, log3, e) => Except.error (⟨t3, log3, st.suggestions⟩, e)
      | Except.ok (log3, articles) =>
        match draftReplyStep save env t2 articles trace log3 with
        | Except.error (t4, log4, e) => Except.error (⟨t4, log4, st.suggestions⟩, e)
        | Except.ok (log4, _draft) =>
          match makeTriageDecision save env t2 cl trace log4 with
          | Except.error (t5, log5, e) => Except.error (⟨t5, log5, st.suggestions⟩, e)
          | Except.ok (log5, action) =>
            match executeDecision save env trace t2 log5 st.suggestions action with
            | Except.error (st2, e) => Except.error (st2, e)
            | Except.ok st2 =>
              Except.ok (st2, ⟨true, trace, ticket.id, action, cl.confidence⟩)

/-- triageTicket: the try body plus the catch block, which writes a
TRIAGE_FAILED audit row carrying the error message and re-raises; if that
write itself rejects, its error is the one that escapes. -/
def triageTicket (save : SaveFn) (env : TriageEnv) (st : HelpdeskState)
    (trace : String) : TriageOutcome :=
  match triageBody save env st trace with
  | Except.ok r => Except.ok r
  | Except.error (stE, msg) =>
    match save ⟨stE.ticket.id, trace, "system", "TRIAGE_FAILED",
        AuditMeta.failed msg⟩ stE.auditLog with
    | Except.ok log2 => Except.error (⟨stE.ticket, log2, stE.suggestions⟩, msg)
    | Except.error e2 => Except.error (stE, e2)

/-! ## Manual trigger route guard (routes/agents.js lines 33-43) -/

def routeTriageableStatuses : List TicketStatus :=
  [TicketStatus.tOpen, TicketStatus.waitingHuman]

/-- The POST /triage handler check: status must be open or waiting_human. -/
def routeCanTriage (s : TicketStatus) : Bool :=
  routeTriageableStatuses.contains s

/-! ## Knowledge-base search facade (llmService.js KBSearchService.search) -/

/-- The three Article.find shapes issued by search, as fallible collaborator
calls; the first argument is the category filter (None when absent or
other). -/
structure KBDeps where
  findText : Option Category → String → Nat → Except String (List Article)
  findLoose : Option Category → List String → Nat → Except String (List Article)
  findRecent : Option Category → Nat → Except String (List Article)

def kbCategoryFilter (category : Option Category) : Option Category :=
  match category with
  | some c => if c = Category.other then none else some c
  | none => none

def kbMapResults (articles : List Article) : List KBResult :=
  articles.map (fun a => ⟨a.id, a.title, a.body, a.tags, a.score.getD 0⟩)

/-- The try block of search: text search first, loose tag/title search when
it returns nothing, recency search when the query is empty. -/
def kbSearchBody (deps : KBDeps) (query : String) (category : Option Category)
    (limit : Nat) : Except String (List KBResult) :=
  let filter := kbCategoryFilter category
  if query ≠ "" then
    match deps.findText filter query limit with
    | Except.error e => Except.error e
    | Except.ok articles =>
      if articles.length = 0 then
        match deps.findLoose filter ((strToLower query).splitOn " ") limit with
        | Except.error e => Except.error e
        | Except.ok articles2 => Except.ok (kbMapResults articles2)
      else Except.ok (kbMapResults articles)
  else
    match deps.findRecent filter limit with
    | Except.error e => Except.error e
    | Except.ok articles => Except.ok (kbMapResults articles)

/-- search: the whole body is wrapped in try/catch and a caught error
resolves to the empty list. -/
def kbSearch (deps : KBDeps) (query : String) (category : Option Category)
    (limit : Nat) : Except String (List KBResult) :=
  match kbSearchBody deps query category limit with
  | Except.ok r => Except.ok r
  | Except.error _ => Except.ok []

/-! ## Retry coordinator (agentService.js retryTriage) -/

structure RetryOutcome where
  result : Except String TriageResult
  tracesUsed : List String
  delaysMs : List Nat
  attemptsMade : Nat
  deriving Repr

/-- The error thrown on loop exit: embeds maxRetries and lastError.message;
with no recorded error (zero attempts) reading .message throws. -/
def exhaustMessage (maxRetries : Nat) (lastError : Option String) :
    Except String TriageResult :=
  match lastError with
  | some m => Except.error
      ("Triage failed after " ++ toString maxRetries ++ " attempts: " ++ m)
  | none => Except.error
      "TypeError: cannot read properties of undefined (reading message)"

/-- The while loop of retryTriage.  att is the outcome of one triage attempt
given its number and its freshly generated run id (traceOf); the recursion
counts down the remaining loop iterations and records the run ids used and
the backoff delays (2^attempt seconds, only while attempt < maxRetries). -/
def retryLoop (att : Nat → String → Except String TriageResult)
    (traceOf : Nat → String) (maxRetries : Nat) (attempt : Nat)
    (lastError : Option String) : Nat → RetryOutcome
  | 0 => ⟨exhaustMessage maxRetries lastError, [], [], attempt⟩
  | remaining + 1 =>
    match att (attempt + 1) (traceOf (attempt + 1)) with
    | Except.ok res => ⟨Except.ok res, [traceOf (attempt + 1)], [], attempt + 1⟩
    | Except.error e =>
      let rest := retryLoop att traceOf maxRetries (attempt + 1) (some e) remaining
      ⟨rest.result,
       traceOf (attempt + 1) :: rest.tracesUsed,
       (if attempt + 1 < maxRetries then [2 ^ (attempt + 1) * 1000] else [])
         ++ rest.delaysMs,
       rest.attemptsMade⟩

/-- retryTriage(ticketId, maxRetries): attempt counter starts at 0, no error
recorded yet, and the loop runs while attempt < maxRetries. -/
def retryTriage (att : Nat → String → Except String TriageResult)
    (traceOf : Nat → String) (maxRetries : Nat) : RetryOutcome :=
  retryLoop att traceOf maxRetries 0 none maxRetries

/-! ## Concrete fixtures for the closed-form runs -/

def sampleTicket : Ticket :=
  { id := 1, title := "Refund for double charge",
    description := "I was charged twice for order 1234",
    category := Category.other, status := TicketStatus.tOpen,
    assignee := none, agentSuggestionId := none, replies := [] }

def sampleText : String := sampleTicket.title ++ "\n" ++ sampleTicket.description

def sampleState : HelpdeskState := ⟨sampleTicket, [], []⟩

def resolvedState : HelpdeskState :=
  ⟨{ sampleTicket with status := TicketStatus.resolved }, [], []⟩

def sampleArticle : KBResult :=
  ⟨10, "Refund policy", "Refunds are processed within 7 days.", ["billing"], 1⟩

/-- An environment whose classifier is the deterministic stub, whose drafter
returns a fixed draft, and whose configuration enables auto-close at the
default 0.78 threshold. -/
def stubEnv : TriageEnv :=
  { classify := fun text => Except.ok (stubClassify text),
    searchKB := fun _ _ _ => Except.ok [sampleArticle],
    draft := fun _ _ => Except.ok ⟨"DRAFT-X", ["Refund policy"]⟩,
    config := ⟨true, Rat.divInt 78 100⟩,
    findArticles := fun ids => if ids == [10] then [sampleArticle] else [],
    firstAgent := some 7,
    systemUserId := 99,
    freshSuggestionId := 500 }

/-- stubEnv with a classify step that always rejects. -/
def envFail : TriageEnv := { stubEnv with classify := fun _ => Except.error "boom" }

def outState : TriageOutcome → HelpdeskState
  | Except.ok (st, _) => st
  | Except.error (st, _) => st

def outMsg : TriageOutcome → String
  | Except.ok _ => ""
  | Except.error (_, m) => m

def outIsOk : TriageOutcome → Bool
  | Except.ok _ => true
  | Except.error _ => false

/-- The counterfactual raw-store run on the sample ticket. -/
def runRaw : TriageOutcome := triageTicket saveAuditRaw stubEnv sampleState "trace-1"

def runRawLog : List AuditEntry := (outState runRaw).auditLog

/-- KB dependencies in which every underlying article query rejects. -/
def kbDepsDown : KBDeps :=
  ⟨fun _ _ _ => Except.error "db down",
   fun _ _ _ => Except.error "db down",
   fun _ _ => Except.error "db down"⟩

/-! # Theorems -/

/-! ## Bridge lemmas for the kernel-reducible rational helpers -/

theorem mathMin_eq_min (a b : ℚ) : mathMin a b = min a b := by
  by_cases h : a ≤ b <;> simp [mathMin, min_def, h]

theorem ratAdd_eq_add (a b : ℚ) : ratAdd a b = a + b := by
  have hda : ((a.den : ℤ)) ≠ 0 := by exact_mod_cast a.den_nz
  have hdb : ((b.den : ℤ)) ≠ 0 := by exact_mod_cast b.den_nz
  rw [ratAdd]
  conv_rhs => rw [← Rat.num_divInt_den a, ← Rat.num_divInt_den b]
  rw [Rat.divInt_add_divInt _ _ hda hdb]

theorem ratMulNat_eq_mul (n : Nat) (b : ℚ) : ratMulNat n b = n * b := by
  rw [ratMulNat]
  have h1 : Rat.divInt ((n : ℤ) * b.num) ((b.den : ℤ)) =
      Rat.divInt (n : ℤ) 1 * Rat.divInt b.num (b.den : ℤ) := by
    rw [Rat.divInt_mul_divInt', one_mul]
  rw [h1, ← Rat.intCast_eq_divInt, Rat.num_divInt_den]
  norm_cast

theorem stubConfidence_eq (n : Nat) :
    stubConfidence n = min (9/10 : ℚ) (6/10 + (n : ℚ) * (1/10)) := by
  rw [stubConfidence, mathMin_eq_min, ratAdd_eq_add, ratMulNat_eq_mul]
  norm_num [Rat.divInt_eq_div]

/-! ## Claim C1 -/

/-- C1: the claim says a successful triage run persists exactly six audit
entries, including TRIAGE_STARTED and DECISION_MADE, under one run id, plus
one AgentSuggestion.  The schema however rejects TRIAGE_STARTED,
DECISION_MADE and TRIAGE_FAILED (they are missing from the action enum), so
under the validating store the very first audit write rejects and no run can
complete; the claimed six-entry ordered trail (with the one suggestion)
materialises only under the counterfactual store that skips the enum
check. -/
theorem c1_schema_rejects_pipeline_actions :
    (auditActionEnum.contains "TRIAGE_STARTED" = false ∧
     auditActionEnum.contains "DECISION_MADE" = false ∧
     auditActionEnum.contains "TRIAGE_FAILED" = false) ∧
    triageTicket saveAuditValidated stubEnv sampleState "trace-2" =
      Except.error (sampleState,
        "AuditLog validation failed: TRIAGE_FAILED is not a valid enum value for path action") ∧
    (runRawLog.map (fun e => e.action) =
      ["TRIAGE_STARTED", "AGENT_CLASSIFIED", "KB_RETRIEVED", "DRAFT_GENERATED",
       "DECISION_MADE", "AUTO_CLOSED"] ∧
     runRawLog.all (fun e => e.traceId == "trace-1") = true ∧
     (outState runRaw).suggestions.length = 1) :=
  ⟨⟨rfl, rfl, rfl⟩, rfl, rfl, rfl, rfl⟩

/-! ## Claim C3 -/

/-- C3: the claim says a step error after ticket load skips the remaining
steps, persists a terminal failure audit event carrying the error text, and
re-raises the same error.  Under the real schema the catch-block write of
TRIAGE_FAILED is itself rejected by the enum validator: the original step
error (here the TRIAGE_STARTED validation rejection recorded by triageBody)
is replaced by the TRIAGE_FAILED validation error and nothing is persisted.
The catch-block logic itself (skip, log with the message, re-raise
unchanged) is visible only under the counterfactual store. -/
theorem c3_failure_event_not_persisted :
    triageBody saveAuditValidated envFail sampleState "trace-4" =
      Except.error (sampleState,
        "AuditLog validation failed: TRIAGE_STARTED is not a valid enum value for path action") ∧
    triageTicket saveAuditValidated envFail sampleState "trace-4" =
      Except.error (sampleState,
        "AuditLog validation failed: TRIAGE_FAILED is not a valid enum value for path action") ∧
    ("AuditLog validation failed: TRIAGE_FAILED is not a valid enum value for path action" ≠
     "AuditLog validation failed: TRIAGE_STARTED is not a valid enum value for path action") ∧
    (outState (triageTicket saveAuditValidated envFail sampleState "trace-4")).auditLog = [] ∧
    triageTicket saveAuditRaw envFail sampleState "trace-3" =
      Except.error (⟨sampleTicket,
        [⟨1, "trace-3", "system", "TRIAGE_STARTED",
          AuditMeta.started (createTriagePlan sampleTicket)⟩,
         ⟨1, "trace-3", "system", "TRIAGE_FAILED", AuditMeta.failed "boom"⟩],
        []⟩, "boom") :=
  ⟨rfl, rfl, by decide, rfl, rfl⟩

/-! ## Claim C4 -/

/-- C4: the claim says the execute phase stores and auto-sends the draft
text produced by the current run's draft step.  On a ticket with no prior
suggestion the draft step of the run produced "DRAFT-X" (its DRAFT_GENERATED
row records length 7), yet the created suggestion and the auto-close reply
carry the hard-coded fallback text of _getDraftFromLogs, not the run's
draft. -/
theorem c4_execute_uses_fallback_draft :
    runRawLog.get? 3 = some ⟨1, "trace-1", "system", "DRAFT_GENERATED",
      AuditMeta.draftGenerated 7 1⟩ ∧
    (outState runRaw).suggestions =
      [⟨500, 1, Category.billing, [10], fallbackDraftText, Rat.divInt 4 5, true⟩] ∧
    fallbackDraftText ≠ "DRAFT-X" ∧
    (outState runRaw).ticket.status = TicketStatus.resolved ∧
    (outState runRaw).ticket.replies = [⟨99, fallbackDraftText, true⟩] ∧
    (outState runRaw).ticket.agentSuggestionId = some 500 :=
  ⟨rfl, rfl, by decide, rfl, rfl, rfl⟩

/-! ## Claim C8 (counterexample) -/

/-- C8 counterexample: the claim says any triage request on a ticket whose
status is outside open or waiting_human is rejected with an invalid-state
error before any step runs, on every invocation path including the direct
service call.  The service itself never inspects the status: on a resolved
ticket the pipeline runs to completion under the accepting store (six audit
rows, one suggestion), and under the validating store the service fails with
the very same schema error it produces for an open ticket, not with any
status-dependent rejection. -/
theorem c8_guard_counterexample :
    outIsOk (triageTicket saveAuditRaw stubEnv resolvedState "trace-5") = true ∧
    (outState (triageTicket saveAuditRaw stubEnv resolvedState "trace-5")).auditLog.length = 6 ∧
    (outState (triageTicket saveAuditRaw stubEnv resolvedState "trace-5")).suggestions.length = 1 ∧
    routeCanTriage TicketStatus.resolved = false ∧
    outMsg (triageTicket saveAuditValidated stubEnv resolvedState "trace-6") =
      outMsg (triageTicket saveAuditValidated stubEnv sampleState "trace-6") :=
  ⟨rfl, rfl, rfl, rfl, rfl⟩

/-! ## Claim C10 (counterexample) -/

/-- C10 counterexample: on the sample run the classification confidence 4/5
exceeds 0.7, the AGENT_CLASSIFIED row's originalCategory field indeed
records the already-updated (predicted) category billing — but the claim's
final part, that the pre-classification category survives nowhere in the
audit trail, is false: the TRIAGE_STARTED plan snapshot written one step
earlier records the original category other. -/
theorem c10_plan_snapshot_counterexample :
    Rat.divInt 7 10 < Rat.divInt 4 5 ∧
    runRawLog.get? 1 = some ⟨1, "trace-1", "system", "AGENT_CLASSIFIED",
      AuditMeta.classified Category.billing Category.billing (Rat.divInt 4 5)⟩ ∧
    sampleTicket.category = Category.other ∧
    Category.other ≠ Category.billing ∧
    runRawLog.get? 0 = some ⟨1, "trace-1", "system", "TRIAGE_STARTED",
      AuditMeta.started (createTriagePlan sampleTicket)⟩ ∧
    (createTriagePlan sampleTicket).ticketInfo.category = Category.other :=
  ⟨by decide, rfl, rfl, by decide, rfl, rfl⟩

/-! ## Claim C2 -/

/-- C2: for every confidence in the unit interval and every configuration,
the triage decision is auto_close iff autoCloseEnabled holds and the
confidence reaches the threshold (inclusive); with autoCloseEnabled false it
is assign_human regardless of confidence.  decideAction is a plain function
of exactly these two inputs, so it is deterministic and side-effect free by
construction. -/
theorem c2_decision_rule (config : Config) (conf : ℚ)
    (h0 : 0 ≤ conf) (h1 : conf ≤ 1) :
    (decideAction config conf = DecisionAction.auto_close ↔
      (config.autoCloseEnabled = true ∧ config.confidenceThreshold ≤ conf)) ∧
    (config.autoCloseEnabled = false →
      decideAction config conf = DecisionAction.assign_human) := by
  rcases config with ⟨en, th⟩
  cases en <;> by_cases hth : th ≤ conf <;>
    simp [decideAction, shouldAutoClose, hth]

/-- C2 witness: confidence 4/5 against the enabled 0.78-threshold
configuration auto-closes. -/
theorem c2_decision_rule_witness :
    (0 : ℚ) ≤ Rat.divInt 4 5 ∧ (Rat.divInt 4 5 : ℚ) ≤ 1 ∧
    decideAction ⟨true, Rat.divInt 78 100⟩ (Rat.divInt 4 5) =
      DecisionAction.auto_close :=
  ⟨by decide, by decide,
   (c2_decision_rule ⟨true, Rat.divInt 78 100⟩ (Rat.divInt 4 5)
      (by decide) (by decide)).1.mpr ⟨rfl, by decide⟩⟩

/-! ## Claim C6 -/

/-- C6 counterexample: on the text "hello" no keyword matches, the stub
classifier returns confidence 1/2, but the claimed formula
min(0.9, 0.6 + 0.1 x matchCount) evaluates to 3/5 at matchCount = 0. -/
theorem c6_zero_matches_counterexample :
    stubClassify "hello" = ⟨Category.other, Rat.divInt 1 2⟩ ∧
    maxMatches "hello" = 0 ∧
    (Rat.divInt 1 2 : ℚ) ≠ min (9/10 : ℚ) (6/10 + ((0 : ℕ) : ℚ) * (1/10)) :=
  ⟨by decide, by decide, by norm_num [Rat.divInt_eq_div]⟩

/-- C6 amended: the confidence formula min(0.9, 0.6 + 0.1 x matchCount)
holds whenever the winning match count is positive; with zero matches the
classifier instead returns category other with its initial confidence
0.5. -/
theorem c6_confidence_amended (text : String) :
    (maxMatches text = 0 → stubClassify text = ⟨Category.other, 1/2⟩) ∧
    (0 < maxMatches text →
      (stubClassify text).confidence =
        min (9/10 : ℚ) (6/10 + ((maxMatches text : ℕ) : ℚ) * (1/10))) := by
  constructor
  · intro h
    simp only [stubClassify]
    rw [if_neg (by omega)]
    congr 1
    norm_num [Rat.divInt_eq_div]
  · intro h
    have hcases : maxMatches text = billingMatches text ∨
        maxMatches text = techMatches text ∨
        maxMatches text = shippingMatches text := by
      rw [maxMatches]; omega
    simp only [stubClassify]
    rw [if_pos h]
    by_cases hb : billingMatches text = maxMatches text
    · rw [if_pos hb]
      show stubConfidence (billingMatches text) = _
      rw [hb, stubConfidence_eq]
    · rw [if_neg hb]
      by_cases ht : techMatches text = maxMatches text
      · rw [if_pos ht]
        show stubConfidence (techMatches text) = _
        rw [ht, stubConfidence_eq]
      · rw [if_neg ht]
        by_cases hs : shippingMatches text = maxMatches text
        · rw [if_pos hs]
          show stubConfidence (shippingMatches text) = _
          rw [hs, stubConfidence_eq]
        · rcases hcases with hx | hx | hx
          · exact absurd hx.symm hb
          · exact absurd hx.symm ht
          · exact absurd hx.symm hs

/-- C6 amended witness: the single billing match of "refund" gives the
formula value. -/
theorem c6_confidence_amended_witness :
    (stubClassify "refund").confidence =
      min (9/10 : ℚ) (6/10 + ((maxMatches "refund" : ℕ) : ℚ) * (1/10)) :=
  (c6_confidence_amended "refund").2 (by decide)

/-! ## Claim C7 -/

/-- C7: the stub classifier returns other when no keyword matches, and
otherwise the first category in the order billing, tech, shipping among
those attaining the maximal match count; on the text "refund invoice" it
returns billing with confidence 4/5 = 0.8. -/
theorem c7_classifier_order (text : String) :
    (maxMatches text = 0 → (stubClassify text).predictedCategory = Category.other) ∧
    (0 < billingMatches text → techMatches text ≤ billingMatches text →
      shippingMatches text ≤ billingMatches text →
      (stubClassify text).predictedCategory = Category.billing) ∧
    (0 < techMatches text → billingMatches text < techMatches text →
      shippingMatches text ≤ techMatches text →
      (stubClassify text).predictedCategory = Category.tech) ∧
    (0 < shippingMatches text → billingMatches text < shippingMatches text →
      techMatches text < shippingMatches text →
      (stubClassify text).predictedCategory = Category.shipping) ∧
    (stubClassify "refund invoice" = ⟨Category.billing, Rat.divInt 4 5⟩ ∧
     (Rat.divInt 4 5 : ℚ) = 8/10) := by
  refine ⟨?_, ?_, ?_, ?_, by decide, by norm_num [Rat.divInt_eq_div]⟩
  · intro h
    simp only [stubClassify]
    rw [if_neg (by omega)]
  · intro hb0 ht hs
    have hm : maxMatches text = billingMatches text := by rw [maxMatches]; omega
    simp only [stubClassify]
    rw [if_pos (by omega), if_pos hm.symm]
  · intro ht0 hb hs
    have hm : maxMatches text = techMatches text := by rw [maxMatches]; omega
    simp only [stubClassify]
    rw [if_pos (by omega), if_neg (by omega), if_pos hm.symm]
  · intro hs0 hb ht
    have hm : maxMatches text = shippingMatches text := by rw [maxMatches]; omega
    simp only [stubClassify]
    rw [if_pos (by omega), if_neg (by omega), if_neg (by omega), if_pos hm.symm]

/-- C7 witness: "invoice" has one billing match and no others. -/
theorem c7_classifier_order_witness :
    (stubClassify "invoice").predictedCategory = Category.billing :=
  (c7_classifier_order "invoice").2.1 (by decide) (by decide) (by decide)

/-! ## Claim C9 -/

/-- C9: KBSearchService.search never raises to its caller: it always
resolves with a list, and whenever the underlying article query chain
rejects it resolves with the empty list. -/
theorem c9_kb_search_never_throws (deps : KBDeps) (query : String)
    (category : Option Category) (limit : Nat) :
    (∃ r, kbSearch deps query category limit = Except.ok r) ∧
    (∀ e, kbSearchBody deps query category limit = Except.error e →
      kbSearch deps query category limit = Except.ok []) := by
  constructor
  · cases h : kbSearchBody deps query category limit with
    | ok r => exact ⟨r, by simp only [kbSearch, h]⟩
    | error e => exact ⟨[], by simp only [kbSearch, h]⟩
  · intro e he
    simp only [kbSearch, he]

/-- C9 witness: with every article query rejecting, search returns the
empty list. -/
theorem c9_kb_search_witness :
    kbSearch kbDepsDown "q" (some Category.billing) 3 = Except.ok [] :=
  (c9_kb_search_never_throws kbDepsDown "q" (some Category.billing) 3).2
    "db down" rfl

/-! ## Retry lemmas -/

theorem mapRange_succ_shift {α : Type} (g : Nat → α) (n : Nat) :
    (List.range (n + 1)).map g = g 0 :: (List.range n).map (fun i => g (i + 1)) := by
  rw [List.range_succ_eq_map, List.map_cons, List.map_map]
  rfl

theorem retryLoop_attempts_le (att : Nat → String → Except String TriageResult)
    (traceOf : Nat → String) (maxRetries : Nat) :
    ∀ remaining attempt lastError,
      (retryLoop att traceOf maxRetries attempt lastError remaining).attemptsMade ≤
        attempt + remaining := by
  intro remaining
  induction remaining with
  | zero =>
    intro attempt lastError
    simp [retryLoop]
  | succ r ih =>
    intro attempt lastError
    simp only [retryLoop]
    cases h : att (attempt + 1) (traceOf (attempt + 1)) with
    | ok res => simp
    | error e =>
      simp only []
      have := ih (attempt + 1) (some e)
      omega

theorem retryLoop_all_fail (att : Nat → String → Except String TriageResult)
    (traceOf : Nat → String) (msgOf : Nat → String)
    (hfail : ∀ a t, att a t = Except.error (msgOf a)) (maxRetries : Nat) :
    ∀ remaining attempt lastError, 0 < remaining →
      attempt + remaining = maxRetries →
      retryLoop att traceOf maxRetries attempt lastError remaining =
        ⟨Except.error ("Triage failed after " ++ toString maxRetries ++
            " attempts: " ++ msgOf maxRetries),
         (List.range remaining).map (fun i => traceOf (attempt + 1 + i)),
         (List.range (remaining - 1)).map (fun i => 2 ^ (attempt + 1 + i) * 1000),
         maxRetries⟩ := by
  intro remaining
  induction remaining with
  | zero =>
    intro attempt lastError h _
    omega
  | succ r ih =>
    intro attempt lastError _ hinv
    simp only [retryLoop, hfail]
    cases r with
    | zero =>
      have ha : attempt + 1 = maxRetries := by omega
      simp only [retryLoop]
      rw [← ha]
      simp [exhaustMessage, List.range_succ]
    | succ r2 =>
      rw [ih (attempt + 1) (some (msgOf (attempt + 1))) (by omega) (by omega)]
      have htr : (List.range (r2 + 1 + 1)).map (fun i => traceOf (attempt + 1 + i)) =
          traceOf (attempt + 1) ::
            (List.range (r2 + 1)).map (fun i => traceOf (attempt + 1 + 1 + i)) := by
        rw [mapRange_succ_shift (fun i => traceOf (attempt + 1 + i))]
        have hfun : (fun i => traceOf (attempt + 1 + (i + 1))) =
            fun i => traceOf (attempt + 1 + 1 + i) := by
          funext i
          exact congrArg traceOf (by omega)
        rw [hfun]
      have hdl : (List.range (r2 + 1 + 1 - 1)).map
            (fun i => 2 ^ (attempt + 1 + i) * 1000) =
          2 ^ (attempt + 1) * 1000 ::
            (List.range (r2 + 1 - 1)).map (fun i => 2 ^ (attempt + 1 + 1 + i) * 1000) := by
        have h1 : r2 + 1 + 1 - 1 = r2 + 1 := by omega
        have h2 : r2 + 1 - 1 = r2 := by omega
        rw [h1, h2, mapRange_succ_shift (fun i => 2 ^ (attempt + 1 + i) * 1000)]
        have hfun : (fun i => 2 ^ (attempt + 1 + (i + 1)) * 1000) =
            fun i => 2 ^ (attempt + 1 + 1 + i) * 1000 := by
          funext i
          exact congrArg (fun k => 2 ^ k * 1000) (by omega)
        rw [hfun]
      rw [htr, hdl, if_pos (show attempt + 1 < maxRetries by omega)]
      simp

/-! ## Claim C5 -/

/-- C5: retryTriage makes at most maxAttempts attempts (for any attempt
outcomes), uses the freshly generated run id of every attempt (pairwise
distinct when the generator is injective); when every attempt fails it makes
exactly maxAttempts attempts, waits 2^attempt seconds (as milliseconds)
after each failed attempt except the last, and throws one error embedding
the attempt count and the last underlying error message. -/
theorem c5_retry_backoff (att : Nat → String → Except String TriageResult)
    (traceOf : Nat → String) (msgOf : Nat → String) (maxRetries : Nat)
    (hmax : 1 ≤ maxRetries)
    (hfail : ∀ a t, att a t = Except.error (msgOf a))
    (hinj : Function.Injective traceOf) :
    (retryTriage att traceOf maxRetries).attemptsMade = maxRetries ∧
    (retryTriage att traceOf maxRetries).tracesUsed =
      (List.range maxRetries).map (fun i => traceOf (1 + i)) ∧
    (retryTriage att traceOf maxRetries).tracesUsed.Nodup ∧
    (retryTriage att traceOf maxRetries).delaysMs =
      (List.range (maxRetries - 1)).map (fun i => 2 ^ (1 + i) * 1000) ∧
    (retryTriage att traceOf maxRetries).result =
      Except.error ("Triage failed after " ++ toString maxRetries ++
        " attempts: " ++ msgOf maxRetries) ∧
    (∀ att2 : Nat → String → Except String TriageResult,
      (retryTriage att2 traceOf maxRetries).attemptsMade ≤ maxRetries) := by
  have h := retryLoop_all_fail att traceOf msgOf hfail maxRetries maxRetries 0 none
    (by omega) (by omega)
  refine ⟨?_, ?_, ?_, ?_, ?_, ?_⟩
  · simp only [retryTriage, h]
  · simp only [retryTriage, h]
  · simp only [retryTriage, h]
    exact List.Nodup.map
      (fun a b hab => by
        have := hinj hab
        omega)
      (List.nodup_range maxRetries)
  · simp only [retryTriage, h]
  · simp only [retryTriage, h]
  · intro att2
    have h2 := retryLoop_attempts_le att2 traceOf maxRetries maxRetries 0 none
    simp only [retryTriage]
    omega

/-- C5 witness: three attempts against an always-throwing triage, with run
ids generated injectively, give delays of 2s then 4s and the three-attempt
error. -/
theorem c5_retry_backoff_witness :
    (retryTriage (fun _ _ => Except.error "boom")
        (fun n => String.mk (List.replicate n 'x')) 3).attemptsMade = 3 ∧
    (retryTriage (fun _ _ => Except.error "boom")
        (fun n => String.mk (List.replicate n 'x')) 3).delaysMs = [2000, 4000] ∧
    (retryTriage (fun _ _ => Except.error "boom")
        (fun n => String.mk (List.replicate n 'x')) 3).result =
      Except.error "Triage failed after 3 attempts: boom" := by
  have h := c5_retry_backoff (fun _ _ => Except.error "boom")
    (fun n => String.mk (List.replicate n 'x')) (fun _ => "boom") 3
    (by omega) (fun a t => rfl)
    (fun a b hab => by
      have := congrArg (fun s : String => s.data.length) hab
      simpa using this)
  refine ⟨h.1, ?_, ?_⟩
  · rw [h.2.2.2.1]
    decide
  · rw [h.2.2.2.2.1]
    rfl

/-! ## Claim C8 (amended) -/

/-- C8 amended: only the manual-trigger HTTP route enforces the status
guard, accepting exactly the statuses open and waiting_human and rejecting
all others before invoking the service; the service-level triageTicket
itself performs no status check, so a direct service call (and hence the
retry path, which calls it) runs the pipeline regardless of the ticket
status. -/
theorem c8_guard_amended :
    (∀ s : TicketStatus, routeCanTriage s = true ↔
      (s = TicketStatus.tOpen ∨ s = TicketStatus.waitingHuman)) ∧
    outIsOk (triageTicket saveAuditRaw stubEnv resolvedState "trace-7") = true ∧
    (outState (triageTicket saveAuditRaw stubEnv resolvedState "trace-7")).suggestions.length = 1 := by
  refine ⟨fun s => ?_, rfl, rfl⟩
  cases s <;> decide

/-! ## Claim C10 (amended) -/

/-- C10 amended: whenever the classification confidence exceeds 0.7 the
ticket category is overwritten with the prediction and saved before the
AGENT_CLASSIFIED row is written, so that row's originalCategory field
records the predicted category and not the pre-classification one; the
pre-classification category is preserved only by the TRIAGE_STARTED plan
snapshot taken one step earlier, not by the AGENT_CLASSIFIED entry. -/
theorem c10_category_overwrite_amended (env : TriageEnv) (ticket : Ticket)
    (trace : String) (log : List AuditEntry) (cl : Classification)
    (hcl : env.classify (ticket.title ++ "\n" ++ ticket.description) = Except.ok cl)
    (hconf : Rat.divInt 7 10 < cl.confidence) :
    classifyTicket saveAuditRaw env ticket trace log =
      Except.ok ({ ticket with category := cl.predictedCategory },
        log ++ [⟨ticket.id, trace, "system", "AGENT_CLASSIFIED",
          AuditMeta.classified cl.predictedCategory cl.predictedCategory
            cl.confidence⟩],
        cl) ∧
    (createTriagePlan ticket).ticketInfo.category = ticket.category := by
  constructor
  · simp only [classifyTicket, hcl]
    simp only [classifyTicketSave, saveAuditRaw]
    rw [if_pos hconf]
  · rfl

/-- C10 amended witness: the sample ticket classifies at confidence 4/5 >
0.7, so the row records billing as both original and predicted category. -/
theorem c10_category_overwrite_amended_witness :
    classifyTicket saveAuditRaw stubEnv sampleTicket "trace-9" [] =
      Except.ok ({ sampleTicket with
          category := (stubClassify sampleText).predictedCategory },
        [⟨1, "trace-9", "system", "AGENT_CLASSIFIED",
          AuditMeta.classified (stubClassify sampleText).predictedCategory
            (stubClassify sampleText).predictedCategory
            (stubClassify sampleText).confidence⟩],
        stubClassify sampleText) :=
  (c10_category_overwrite_amended stubEnv sampleTicket "trace-9" []
    (stubClassify sampleText) rfl (by decide)).1

end Helpdesk
